import Mathlib

/-!
# Soda-Safeguard: shallow embedding and verification

This file embeds the core of the Soda-Safeguard data-quality tool in Lean 4
and proves properties of it.  The embedded code is the local-storage variant
of `src/src/utils/api.ts` (the variant whose `runValidation` evaluates
checks against stored CSV datasets, lines 432-571) together with the
storage layer `src/src/utils/storage.ts` and the CSV upload path
(`uploadCsvFile` / `parseCSV`, lines 342-395).

Modelling conventions:
* JavaScript numbers on the integer-valued paths are modelled as `ℕ`/`ℤ`
  with `Nat` division standing for `Math.floor` of a non-negative quotient;
  `Math.random()` draws are modelled as explicit `ℚ` parameters, one named
  field per call site of `Math.random()` in the source (`Rng`).
* `Date.now()` is an explicit `now : ℕ` parameter.
* A CSV row (a JS object mapping column names to cell strings) is an
  association list; a missing key models a JS `undefined` property.
* `localStorage` is a map from keys to an abstract cell recording the
  outcome of `getItem` + `JSON.parse`: absent (`getItem` returns `null`),
  the empty string (falsy, skipped before parsing), unparseable content
  (`JSON.parse` throws, caught by `getStoredData`), or a parsed list.
* The thrown-and-caught exceptions of `runValidation` are modelled by the
  explicit `ApiResponse.failure` branches that the `catch` block produces.
-/

namespace SodaSafeguard

/-- A CSV row as stored in `previewData`: a JS object mapping column names
to cell values, modelled as an association list. A column absent from the
list models an `undefined` property. -/
abbrev Row := List (String × String)

/-- JS property read `row[c]`: `none` models `undefined`. -/
def lookupVal (r : Row) (c : String) : Option String :=
  (r.find? (fun p => p.1 == c)).map (fun p => p.2)

/-- JS truthiness test `!row[c]` used by the missing-values evaluator:
true iff the property is `undefined` or the empty string (the only falsy
string). -/
def isEmptyVal (r : Row) (c : String) : Bool :=
  match lookupVal r c with
  | none => true
  | some v => v == ""

/-- The seven check types of `ValidationCheckType` in `src/types`. -/
inductive CheckType
  | missing_values
  | unique_values
  | valid_values
  | value_range
  | regex_match
  | schema
  | custom_sql
deriving DecidableEq, Repr

/-- The TS string of a check type, used in `_reason` strings. -/
def checkTypeName : CheckType → String
  | .missing_values => "missing_values"
  | .unique_values => "unique_values"
  | .valid_values => "valid_values"
  | .value_range => "value_range"
  | .regex_match => "regex_match"
  | .schema => "schema"
  | .custom_sql => "custom_sql"

/-- Dataset kind tag of `check.dataset.type`. -/
inductive DatasetType
  | csv
  | postgres
deriving DecidableEq, Repr

/-- The `check.dataset` reference (id + type). -/
structure DatasetRef where
  type : DatasetType
  id : String
deriving DecidableEq, Repr

/-- The `parameters` map of a check; only the fields read by
`runValidation` are modelled.  `none` models an absent (undefined) JS
property; the `|| 0` / `|| []` defaulting of the source is applied at the
use sites. -/
structure CheckParameters where
  threshold : Option ℚ
  values : Option (List String)
deriving DecidableEq, Repr

/-- `ValidationCheck` from `src/types`. -/
structure ValidationCheck where
  id : String
  name : String
  type : CheckType
  dataset : DatasetRef
  table : Option String
  column : Option String
  parameters : CheckParameters
deriving DecidableEq, Repr

/-- `CsvDataset` from `src/types` (upload timestamp omitted; it is never
read by the validation code). -/
structure CsvDataset where
  id : String
  name : String
  fileName : String
  columns : List String
  rowCount : ℕ
  previewData : List Row
deriving DecidableEq, Repr

/-- `PostgresConnection`, reduced to the fields `runValidation` reads on
the path modelled here (the local-storage variant builds `failedRows` only
for CSV datasets, so the table list is irrelevant). -/
structure PostgresConnection where
  id : String
  name : String
deriving DecidableEq, Repr

/-- Result status values of `ValidationResult.status`. -/
inductive Status
  | passed
  | warning
  | failed
  | error
deriving DecidableEq, Repr

/-- `ValidationResult.metrics`.  `passedCount` is `totalRows - failedCount`
computed in JS number arithmetic, hence modelled in `ℤ`. -/
structure Metrics where
  rowCount : ℕ
  executionTimeMs : ℕ
  passedCount : ℤ
  failedCount : ℕ
deriving DecidableEq, Repr

/-- `ValidationResult` from `src/types`. `failedRows = none` models the
field being absent (`undefined`). -/
structure ValidationResult where
  id : String
  checkId : String
  checkName : String
  dataset : DatasetRef
  table : Option String
  column : Option String
  status : Status
  metrics : Metrics
  errorMessage : String
  failedRows : Option (List Row)
deriving DecidableEq, Repr

/-- `ApiResponse<T>`: `{success: true, data}` or `{success: false, error}`
(the latter is what `handleError` returns after catching a thrown error). -/
inductive ApiResponse (α : Type)
  | success (data : α)
  | failure (error : String)
deriving DecidableEq, Repr

/-- One field per `Math.random()` call site inside `runValidation`; each
draw lies in `[0,1)`.  Passing the draws explicitly makes the randomness
of the source visible in the embedding. -/
structure Rng where
  /-- `Math.floor(Math.random() * 10000) + 100` for postgres row counts. -/
  pgRows : ℚ
  /-- `Math.random() * 5` missing percentage (postgres missing_values). -/
  missingPct : ℚ
  /-- `Math.floor(Math.random() * 10)` (postgres unique_values). -/
  pgUnique : ℚ
  /-- `Math.random() * totalRows * 0.02` (postgres valid_values). -/
  pgValid : ℚ
  /-- `Math.random() > 0.2` in the default switch branch. -/
  defaultPass : ℚ
  /-- `Math.random() * totalRows * 0.05` in the default switch branch. -/
  defaultFail : ℚ
  /-- `Math.floor(Math.random() * 2000) + 200` for `executionTimeMs`. -/
  execTime : ℚ
deriving Repr

/-- The dataset resolved by `runValidation`: a CSV dataset or a postgres
connection, the variant matching `check.dataset.type`. -/
inductive Dataset
  | csv (d : CsvDataset)
  | pg (c : PostgresConnection)
deriving DecidableEq, Repr

/-- The stored application data read and written by the API layer: the
four localStorage-backed lists, in parsed form. -/
structure AppState where
  checks : List ValidationCheck
  csvDatasets : List CsvDataset
  pgConnections : List PostgresConnection
  results : List ValidationResult
deriving DecidableEq, Repr

/-- `check.parameters.threshold || 0`. -/
def thresholdOf (check : ValidationCheck) : ℚ :=
  check.parameters.threshold.getD 0

/-- `check.parameters.values || []`. -/
def allowedOf (check : ValidationCheck) : List String :=
  check.parameters.values.getD []

/-- `check.column || ''`. -/
def columnKey (check : ValidationCheck) : String :=
  check.column.getD ""

/-- The CSV arm of the `missing_values` case of `runValidation`'s switch
(api.ts lines 475-486): count empty values in the preview, scale to the
full dataset, and compare against the threshold; if the column is not
among the dataset's columns nothing is computed and the initial
`passed = false`, `failedCount = 0` remain. -/
def missingValuesCsv (check : ValidationCheck) (d : CsvDataset) (totalRows : ℕ) : Bool × ℕ :=
  if d.columns.contains (columnKey check) then
    let emptyCount := d.previewData.countP (fun r => isEmptyVal r (columnKey check))
    let failedCount := totalRows * emptyCount / d.previewData.length
    (decide ((failedCount : ℚ) ≤ thresholdOf check * totalRows / 100), failedCount)
  else
    (false, 0)

/-- The CSV arm of the `unique_values` case (api.ts lines 495-504):
duplicates among the previewed column values, scaled to the full dataset.
`values.dedup.length` models `new Set(values).size`. -/
def uniqueValuesCsv (check : ValidationCheck) (d : CsvDataset) (totalRows : ℕ) : Bool × ℕ :=
  let values := d.previewData.map (fun r => lookupVal r (columnKey check))
  let rawFailed := values.length - values.dedup.length
  let failedCount := totalRows * rawFailed / d.previewData.length
  (failedCount == 0, failedCount)

/-- The CSV arm of the `valid_values` case (api.ts lines 514-522): preview
values outside the allowed list (a JS `undefined` is never a member),
scaled to the full dataset. -/
def validValuesCsv (check : ValidationCheck) (d : CsvDataset) (totalRows : ℕ) : Bool × ℕ :=
  let invalidCount := d.previewData.countP (fun r =>
    match lookupVal r (columnKey check) with
    | some v => !(allowedOf check).contains v
    | none => true)
  let failedCount := totalRows * invalidCount / d.previewData.length
  (failedCount == 0, failedCount)

/-- The `default` branch of the switch (api.ts lines 527-530), taken for
`value_range`, `regex_match`, `schema` and `custom_sql`: an 80% random
pass rate and a random failure count. -/
def defaultEval (rng : Rng) (totalRows : ℕ) : Bool × ℕ :=
  let passed := decide (rng.defaultPass > 1 / 5)
  (passed, if passed then 0 else ((rng.defaultFail * totalRows * (5 / 100) : ℚ)).floor.toNat)

/-- The switch of `runValidation` on `check.type` (api.ts lines 467-531),
returning `(passed, failedCount)`.  The scrutinee `check.type` is passed
explicitly as `t`; the postgres/CSV split inside each case follows
`check.dataset.type`, which by construction of `resolveDataset` agrees
with the variant of `ds`. -/
def evalCheck (t : CheckType) (check : ValidationCheck) (ds : Dataset) (totalRows : ℕ)
    (rng : Rng) : Bool × ℕ :=
  match t, ds with
  | .missing_values, .pg _ =>
      let failedCount := (((totalRows : ℚ) * (rng.missingPct * 5)) / 100).floor.toNat
      (decide ((failedCount : ℚ) ≤ thresholdOf check * totalRows / 100), failedCount)
  | .missing_values, .csv d => missingValuesCsv check d totalRows
  | .unique_values, .pg _ =>
      let failedCount := ((rng.pgUnique * 10 : ℚ)).floor.toNat
      (failedCount == 0, failedCount)
  | .unique_values, .csv d => uniqueValuesCsv check d totalRows
  | .valid_values, .pg _ =>
      let failedCount := ((rng.pgValid * totalRows * (2 / 100) : ℚ)).floor.toNat
      (failedCount == 0, failedCount)
  | .valid_values, .csv d => validValuesCsv check d totalRows
  | _, _ => defaultEval rng totalRows

/-- `check.dataset.type === 'csv' ? dataset.rowCount :
Math.floor(Math.random() * 10000) + 100` (api.ts lines 463-465). -/
def totalRowsFor (ds : Dataset) (rng : Rng) : ℕ :=
  match ds with
  | .csv d => d.rowCount
  | .pg _ => ((rng.pgRows * 10000 : ℚ)).floor.toNat + 100

/-- Dataset resolution of `runValidation` (api.ts lines 444-451). -/
def resolveDataset (st : AppState) (ref : DatasetRef) : Option Dataset :=
  if ref.type = DatasetType.csv then
    (st.csvDatasets.find? (fun d => d.id == ref.id)).map Dataset.csv
  else
    (st.pgConnections.find? (fun c => c.id == ref.id)).map Dataset.pg

/-- The failed-row sample built for failed CSV runs (api.ts lines 552-559):
`Array.from({length: Math.min(failedCount, previewData.length)})` mapped to
the first preview rows with a `_reason` property added. -/
def sampleFailedRows (t : CheckType) (d : CsvDataset) (failedCount : ℕ) : List Row :=
  (d.previewData.take (min failedCount d.previewData.length)).map
    (fun r => r ++ [("_reason", "Failed " ++ checkTypeName t ++ " validation")])

/-- The list-level content of `storeItem` from `src/src/utils/storage.ts`
(line 33): the new item is prepended and any previous entry with the same
id is dropped. -/
def storeResultList (l : List ValidationResult) (r : ValidationResult) :
    List ValidationResult :=
  r :: l.filter (fun x => x.id != r.id)

/-- Assembly of the `ValidationResult` of one successful `runValidation`
pass (api.ts lines 533-559). -/
def buildResult (check : ValidationCheck) (checkId : String) (ds : Dataset) (rng : Rng)
    (now : ℕ) : ValidationResult :=
  let totalRows := totalRowsFor ds rng
  let passed := (evalCheck check.type check ds totalRows rng).1
  let failedCount := (evalCheck check.type check ds totalRows rng).2
  { id := "result_" ++ toString now
    checkId := checkId
    checkName := check.name
    dataset := check.dataset
    table := check.table
    column := check.column
    status := if passed then .passed else .failed
    metrics :=
      { rowCount := totalRows
        executionTimeMs := ((rng.execTime * 2000 : ℚ)).floor.toNat + 200
        passedCount := (totalRows : ℤ) - (failedCount : ℤ)
        failedCount := failedCount }
    errorMessage := ""
    failedRows :=
      match ds with
      | .csv d => if !passed then some (sampleFailedRows check.type d failedCount) else none
      | .pg _ => none }

/-- `runValidation` (api.ts lines 432-571), the local-storage variant.
The two `throw new Error(...)` statements are caught by the surrounding
`try`/`catch` and turned by `handleError` into a failure response, leaving
the stores untouched; a successful run persists exactly the built result
via `storeValidationResult`. -/
def runValidation (st : AppState) (checkId : String) (rng : Rng) (now : ℕ) :
    ApiResponse ValidationResult × AppState :=
  match st.checks.find? (fun c => c.id == checkId) with
  | none => (.failure "Validation check not found", st)
  | some check =>
    match resolveDataset st check.dataset with
    | none => (.failure "Dataset not found", st)
    | some ds =>
      let result := buildResult check checkId ds rng now
      (.success result, { st with results := storeResultList st.results result })

/-- Status of the run as seen by the caller (`none` when the response is a
failure). -/
def resultStatus : ApiResponse ValidationResult → Option Status
  | .success r => some r.status
  | .failure _ => none

/-- `metrics.failedCount` of the run as seen by the caller. -/
def resultFailedCount : ApiResponse ValidationResult → Option ℕ
  | .success r => some r.metrics.failedCount
  | .failure _ => none

/-- `errorMessage` of the run as seen by the caller. -/
def resultErrorMessage : ApiResponse ValidationResult → Option String
  | .success r => some r.errorMessage
  | .failure _ => none

/-- `failedRows` of the run as seen by the caller (outer `none`: the run
failed; inner `none`: the field is absent from the result). -/
def resultFailedRows : ApiResponse ValidationResult → Option (Option (List Row))
  | .success r => some r.failedRows
  | .failure _ => none

/-- Metric coherence of a run as seen by the caller: on a success
response, `passedCount + failedCount = rowCount`; a failure response
carries no metrics. -/
def metricsConsistent : ApiResponse ValidationResult → Prop
  | .success r => r.metrics.passedCount + (r.metrics.failedCount : ℤ) = (r.metrics.rowCount : ℤ)
  | .failure _ => True

/-- The deterministic CSV evaluation underlying the three explicitly
implemented check types, evaluated at `totalRows = d.rowCount` as
`runValidation` does for CSV datasets.  Used to state that those runs do
not depend on the random draws. -/
def csvEval (check : ValidationCheck) (d : CsvDataset) : Bool × ℕ :=
  match check.type with
  | .missing_values => missingValuesCsv check d d.rowCount
  | .unique_values => uniqueValuesCsv check d d.rowCount
  | .valid_values => validValuesCsv check d d.rowCount
  | _ => (false, 0)

/-- Number of distinct values (`new Set(values).size`) of the checked
column over the preview rows. -/
def uniqueCount (check : ValidationCheck) (d : CsvDataset) : ℕ :=
  ((d.previewData.map (fun r => lookupVal r (columnKey check))).dedup).length

/-! ## The storage layer (`src/src/utils/storage.ts`) -/

/-- Abstraction of one `localStorage` slot, recording the outcome of
`localStorage.getItem(key)` followed by `JSON.parse`:
`absent` — `getItem` returned `null`;
`emptyStr` — `getItem` returned `""`, which is falsy, so `getStoredData`
never parses it; `invalid` — content on which `JSON.parse` throws (caught
by `getStoredData`); `valid` — content parsing to a list of items. -/
inductive StorageCell (α : Type)
  | absent
  | emptyStr
  | invalid (raw : String)
  | valid (items : List α)
deriving DecidableEq

/-- The browser `localStorage`, keyed by string. -/
def LocalStorage (α : Type) := String → StorageCell α

/-- `getStoredData` (storage.ts lines 11-19): `data ? JSON.parse(data) : []`
inside `try`/`catch`, the catch returning `[]`. -/
def getStoredData {α : Type} (st : LocalStorage α) (key : String) : List α :=
  match st key with
  | .absent => []
  | .emptyStr => []
  | .invalid _ => []
  | .valid items => items

/-- `storeData` (storage.ts lines 22-28): `setItem(key, JSON.stringify(data))`
— the slot now holds content parsing back to `data`. -/
def storeData {α : Type} (st : LocalStorage α) (key : String) (data : List α) :
    LocalStorage α :=
  fun k => if k = key then .valid data else st k

/-- `storeItem` (storage.ts lines 31-36): prepend the item to the stored
list with any previous same-id entry filtered out, and store the result.
`idOf` stands for the `.id` property of the generic item type. -/
def storeItem {α : Type} (idOf : α → String) (st : LocalStorage α) (key : String)
    (item : α) : LocalStorage α :=
  storeData st key (item :: (getStoredData st key).filter (fun d => idOf d != idOf item))

/-! ## CSV upload (`uploadCsvFile` / `parseCSV`, api.ts lines 342-395) -/

/-- Split a character list on every occurrence of `sep`; an empty input
yields one empty segment, matching JS `"".split(c) = [""]` and, for a
single-character separator, `String.prototype.split` in general. -/
def splitOnChar (sep : Char) : List Char → List (List Char)
  | [] => [[]]
  | c :: cs =>
    let rest := splitOnChar sep cs
    if c = sep then [] :: rest
    else (c :: rest.headD []) :: rest.tail

/-- JS `s.split(sep)` for the one-character separators (`'\n'`, `','`)
used by `parseCSV`. -/
def jsSplit (sep : Char) (s : String) : List String :=
  (splitOnChar sep s.toList).map (fun l => String.mk l)

/-- Whitespace removed by JS `String.prototype.trim`, restricted to the
characters that can occur between the one-character splits above. -/
def isJsWhitespace (c : Char) : Bool :=
  c == ' ' || c == '\t' || c == '\n' || c == '\r'

/-- JS `s.trim()`: strip leading and trailing whitespace. -/
def jsTrim (s : String) : String :=
  String.mk (((s.toList.dropWhile isJsWhitespace).reverse.dropWhile isJsWhitespace).reverse)

/-- `.replace(/^"(.*)"$/, '$1')`: strip one pair of surrounding double
quotes when the whole (newline-free) string is quoted. -/
def unquote (s : String) : String :=
  let cs := s.toList
  if 2 ≤ cs.length ∧ cs.headD ' ' = '"' ∧ cs.getLast? = some '"' then
    String.mk ((cs.drop 1).dropLast)
  else s

/-- One CSV line split on commas with each field trimmed and unquoted:
`lines[i].split(',').map(v => v.trim().replace(/^"(.*)"$/, '$1'))`. -/
def parseCsvLine (line : String) : List String :=
  (jsSplit ',' line).map (fun v => unquote (jsTrim v))

/-- The row object built by `parseCSV`:
`headers.forEach((header, index) => row[header] = values[index] || '')`. -/
def buildRow (headers : List String) (values : List String) : Row :=
  headers.enum.map (fun p => (p.2, values.getD p.1 ""))

/-- The value of `parseCSV`. -/
structure ParsedCsv where
  headers : List String
  rows : List Row
  rowCount : ℕ
deriving DecidableEq, Repr

/-- `parseCSV` (api.ts lines 345-362): split the content on `'\n'`, take
the first line as headers, build preview rows from lines `1..3` skipping
blank lines, and report `rowCount = lines.length - 1`. -/
def parseCSV (content : String) : ParsedCsv :=
  let lines := jsSplit '\n' content
  let headers := (jsSplit ',' (lines.headD "")).map (fun h => unquote (jsTrim h))
  let rows := (((lines.drop 1).take 3).filter (fun l => jsTrim l != "")).map
    (fun l => buildRow headers (parseCsvLine l))
  { headers := headers, rows := rows, rowCount := lines.length - 1 }

/-- `file.name.replace('.csv', '')`: JS `String.replace` with a string
pattern replaces only the first occurrence. -/
def stripCsvExt (s : String) : String :=
  match s.splitOn ".csv" with
  | [] => s
  | [whole] => whole
  | first :: second :: rest => first ++ String.intercalate ".csv" (second :: rest)

/-- The `CsvDataset` object built and stored by `uploadCsvFile`
(api.ts lines 372-386) from the file content. -/
def uploadCsvDataset (content : String) (fileName : String) (now : ℕ) : CsvDataset :=
  let p := parseCSV content
  { id := "csv_" ++ toString now
    name := stripCsvExt fileName
    fileName := fileName
    columns := p.headers
    rowCount := p.rowCount
    previewData := p.rows }

/-- Follows the claim's words, for comparison with the source: the number
of data rows in the file content excluding the header line, a data row
being a non-blank line after the first — the same notion of a row that
`parseCSV` itself applies when it builds preview rows (blank lines are
skipped). -/
def specDataRowCount (content : String) : ℕ :=
  ((jsSplit '\n' content).drop 1).countP (fun l => jsTrim l != "")

/-! ## Concrete fixtures used by counterexamples and witnesses -/

/-- A random stream whose draws are all `1/10`. -/
def rngA : Rng :=
  { pgRows := 1 / 10, missingPct := 1 / 10, pgUnique := 1 / 10, pgValid := 1 / 10
    defaultPass := 1 / 10, defaultFail := 1 / 10, execTime := 1 / 10 }

/-- A random stream whose draws are all `9/10`. -/
def rngB : Rng :=
  { pgRows := 9 / 10, missingPct := 9 / 10, pgUnique := 9 / 10, pgValid := 9 / 10
    defaultPass := 9 / 10, defaultFail := 9 / 10, execTime := 9 / 10 }

/-- Empty check parameters. -/
def noParams : CheckParameters := { threshold := none, values := none }

/-- A `value_range` check over the CSV dataset `csv_1`. -/
def checkRange1 : ValidationCheck :=
  { id := "check_1", name := "range check", type := .value_range
    dataset := { type := .csv, id := "csv_1" }, table := none, column := some "v"
    parameters := noParams }

/-- A 100-row CSV dataset with a one-row preview. -/
def dataset1 : CsvDataset :=
  { id := "csv_1", name := "d1", fileName := "d1.csv", columns := ["v"]
    rowCount := 100, previewData := [[("v", "x")]] }

/-- State holding `checkRange1` and `dataset1`. -/
def state1 : AppState :=
  { checks := [checkRange1], csvDatasets := [dataset1], pgConnections := [], results := [] }

/-- A `missing_values` check with threshold 100 over `csv_2`. -/
def checkMissing2 : ValidationCheck :=
  { id := "check_2", name := "missing check", type := .missing_values
    dataset := { type := .csv, id := "csv_2" }, table := none, column := some "v"
    parameters := { threshold := some 100, values := none } }

/-- A 4-row CSV dataset whose two-row preview has one empty `v` cell. -/
def dataset2 : CsvDataset :=
  { id := "csv_2", name := "d2", fileName := "d2.csv", columns := ["v"]
    rowCount := 4, previewData := [[("v", "")], [("v", "x")]] }

/-- State holding `checkMissing2` and `dataset2`. -/
def state2 : AppState :=
  { checks := [checkMissing2], csvDatasets := [dataset2], pgConnections := [], results := [] }

/-- A `custom_sql` check referencing the CSV dataset `csv_3`. -/
def checkSql3 : ValidationCheck :=
  { id := "check_3", name := "sql check", type := .custom_sql
    dataset := { type := .csv, id := "csv_3" }, table := none, column := none
    parameters := noParams }

/-- A small CSV dataset for the `custom_sql` scenario. -/
def dataset3 : CsvDataset :=
  { id := "csv_3", name := "d3", fileName := "d3.csv", columns := ["a"]
    rowCount := 10, previewData := [[("a", "x")]] }

/-- State holding `checkSql3` and `dataset3`. -/
def state3 : AppState :=
  { checks := [checkSql3], csvDatasets := [dataset3], pgConnections := [], results := [] }

/-- A check whose referenced dataset `ghost` is not stored. -/
def checkGhost4 : ValidationCheck :=
  { id := "check_4", name := "ghost check", type := .missing_values
    dataset := { type := .csv, id := "ghost" }, table := none, column := some "v"
    parameters := noParams }

/-- State holding `checkGhost4` and no datasets. -/
def state4 : AppState :=
  { checks := [checkGhost4], csvDatasets := [], pgConnections := [], results := [] }

/-- A `missing_values` check on a column absent from its dataset. -/
def checkNoCol5 : ValidationCheck :=
  { id := "check_5", name := "nocol check", type := .missing_values
    dataset := { type := .csv, id := "csv_5" }, table := none, column := some "nope"
    parameters := noParams }

/-- A dataset without the checked column. -/
def dataset5 : CsvDataset :=
  { id := "csv_5", name := "d5", fileName := "d5.csv", columns := ["a"]
    rowCount := 5, previewData := [[("a", "x")]] }

/-- State holding `checkNoCol5` and `dataset5`. -/
def state5 : AppState :=
  { checks := [checkNoCol5], csvDatasets := [dataset5], pgConnections := [], results := [] }

/-- A `unique_values` check over `csv_7`. -/
def checkUnique7 : ValidationCheck :=
  { id := "check_7", name := "unique check", type := .unique_values
    dataset := { type := .csv, id := "csv_7" }, table := none, column := some "v"
    parameters := noParams }

/-- A 6-row dataset whose 3-row preview has a duplicated `v` value. -/
def dataset7 : CsvDataset :=
  { id := "csv_7", name := "d7", fileName := "d7.csv", columns := ["v"]
    rowCount := 6, previewData := [[("v", "a")], [("v", "a")], [("v", "b")]] }

/-- State holding `checkUnique7` and `dataset7`. -/
def state7 : AppState :=
  { checks := [checkUnique7], csvDatasets := [dataset7], pgConnections := [], results := [] }

/-- A `valid_values` check over `csv_6` (used for run witnesses). -/
def checkValid6 : ValidationCheck :=
  { id := "check_6", name := "valid check", type := .valid_values
    dataset := { type := .csv, id := "csv_6" }, table := none, column := some "v"
    parameters := { threshold := none, values := some ["ok"] } }

/-- A 4-row dataset whose two-row preview has one disallowed `v` value. -/
def dataset6 : CsvDataset :=
  { id := "csv_6", name := "d6", fileName := "d6.csv", columns := ["v"]
    rowCount := 4, previewData := [[("v", "ok")], [("v", "bad")]] }

/-- State holding `checkValid6` and `dataset6`. -/
def state6 : AppState :=
  { checks := [checkValid6], csvDatasets := [dataset6], pgConnections := [], results := [] }

/-- A concrete `localStorage` for the storage-layer witnesses: key `tbl`
holds two items, key `bad` holds unparseable content, everything else is
absent.  Items are `(id, payload)` pairs with `Prod.fst` as the id. -/
def storageX : LocalStorage (String × String) :=
  fun k => if k = "tbl" then .valid [("a", "1"), ("b", "2")]
    else if k = "bad" then .invalid "not json" else .absent

/-! ## Helper lemmas -/

/-- The status of a built result is decided by the evaluation verdict. -/
theorem buildResult_status (check : ValidationCheck) (checkId : String) (ds : Dataset)
    (rng : Rng) (now : ℕ) :
    (buildResult check checkId ds rng now).status =
      if (evalCheck check.type check ds (totalRowsFor ds rng) rng).1 then Status.passed
      else Status.failed := rfl

/-- The failed count of a built result is the evaluation's count. -/
theorem buildResult_failedCount (check : ValidationCheck) (checkId : String) (ds : Dataset)
    (rng : Rng) (now : ℕ) :
    (buildResult check checkId ds rng now).metrics.failedCount =
      (evalCheck check.type check ds (totalRowsFor ds rng) rng).2 := rfl

/-- The passed count of a built result. -/
theorem buildResult_passedCount (check : ValidationCheck) (checkId : String) (ds : Dataset)
    (rng : Rng) (now : ℕ) :
    (buildResult check checkId ds rng now).metrics.passedCount =
      (totalRowsFor ds rng : ℤ) -
        ((evalCheck check.type check ds (totalRowsFor ds rng) rng).2 : ℤ) := rfl

/-- The row count of a built result. -/
theorem buildResult_rowCount (check : ValidationCheck) (checkId : String) (ds : Dataset)
    (rng : Rng) (now : ℕ) :
    (buildResult check checkId ds rng now).metrics.rowCount = totalRowsFor ds rng := rfl

/-- The error message of a built result is always empty. -/
theorem buildResult_errorMessage (check : ValidationCheck) (checkId : String) (ds : Dataset)
    (rng : Rng) (now : ℕ) :
    (buildResult check checkId ds rng now).errorMessage = "" := rfl

/-- The failed-row sample of a result built over a CSV dataset. -/
theorem buildResult_failedRows_csv (check : ValidationCheck) (checkId : String)
    (d : CsvDataset) (rng : Rng) (now : ℕ) :
    (buildResult check checkId (Dataset.csv d) rng now).failedRows =
      if !(evalCheck check.type check (Dataset.csv d) (totalRowsFor (Dataset.csv d) rng) rng).1
      then some (sampleFailedRows check.type d
        (evalCheck check.type check (Dataset.csv d) (totalRowsFor (Dataset.csv d) rng) rng).2)
      else none := rfl

/-- Reduction of `runValidation` when the check is found and its CSV
dataset resolves. -/
theorem run_csv_eq (st : AppState) (checkId : String) (check : ValidationCheck)
    (d : CsvDataset) (rng : Rng) (now : ℕ)
    (hc : st.checks.find? (fun c => c.id == checkId) = some check)
    (hdt : check.dataset.type = DatasetType.csv)
    (hd : st.csvDatasets.find? (fun x => x.id == check.dataset.id) = some d) :
    runValidation st checkId rng now =
      (ApiResponse.success (buildResult check checkId (Dataset.csv d) rng now),
        { st with results :=
            storeResultList st.results (buildResult check checkId (Dataset.csv d) rng now) }) := by
  simp [runValidation, hc, resolveDataset, hdt, hd]

/-- `runValidation` never touches the check, dataset or connection
stores; only the results list can change. -/
theorem runValidation_preserves (st : AppState) (checkId : String) (rng : Rng) (now : ℕ) :
    (runValidation st checkId rng now).2.checks = st.checks ∧
    (runValidation st checkId rng now).2.csvDatasets = st.csvDatasets ∧
    (runValidation st checkId rng now).2.pgConnections = st.pgConnections := by
  unfold runValidation
  cases st.checks.find? (fun c => c.id == checkId) with
  | none => exact ⟨rfl, rfl, rfl⟩
  | some check =>
    dsimp only
    cases resolveDataset st check.dataset with
    | none => exact ⟨rfl, rfl, rfl⟩
    | some ds => exact ⟨rfl, rfl, rfl⟩

/-- For the three check types with a real CSV evaluator, the observable
outcome of a run is a function of the stored check and dataset alone:
the random draws and the clock do not occur in it. -/
theorem runValidation_csv_core (st : AppState) (checkId : String) (check : ValidationCheck)
    (rng : Rng) (now : ℕ)
    (hc : st.checks.find? (fun c => c.id == checkId) = some check)
    (hdt : check.dataset.type = DatasetType.csv)
    (ht : check.type = CheckType.missing_values ∨ check.type = CheckType.unique_values ∨
      check.type = CheckType.valid_values) :
    resultStatus (runValidation st checkId rng now).1 =
      (st.csvDatasets.find? (fun x => x.id == check.dataset.id)).map
        (fun d => if (csvEval check d).1 then Status.passed else Status.failed) ∧
    resultFailedCount (runValidation st checkId rng now).1 =
      (st.csvDatasets.find? (fun x => x.id == check.dataset.id)).map
        (fun d => (csvEval check d).2) := by
  cases hd : st.csvDatasets.find? (fun x => x.id == check.dataset.id) with
  | none =>
    have hrun : runValidation st checkId rng now = (.failure "Dataset not found", st) := by
      simp [runValidation, hc, resolveDataset, hdt, hd]
    simp [hrun, resultStatus, resultFailedCount]
  | some d =>
    rw [run_csv_eq st checkId check d rng now hc hdt hd]
    rcases ht with h | h | h <;>
      simp [resultStatus, resultFailedCount, buildResult_status, buildResult_failedCount,
        csvEval, h, evalCheck, totalRowsFor]

/-! ## Claim theorems -/

/-- C1 (amended): `runValidation` is deterministic for CSV datasets for
checks of the three types with a real CSV evaluator (`missing_values`,
`unique_values`, `valid_values`): two consecutive invocations with the
same `checkId` — whatever values `Math.random()` and `Date.now()` return
— yield results with identical `failedCount` and identical `status`.
(For the remaining four types the default switch branch draws random
numbers, so this fails; see the counterexample.) -/
theorem runValidation_csv_deterministic (st : AppState) (checkId : String)
    (check : ValidationCheck) (rng₁ rng₂ : Rng) (now₁ now₂ : ℕ)
    (hc : st.checks.find? (fun c => c.id == checkId) = some check)
    (hdt : check.dataset.type = DatasetType.csv)
    (ht : check.type = CheckType.missing_values ∨ check.type = CheckType.unique_values ∨
      check.type = CheckType.valid_values) :
    resultStatus (runValidation (runValidation st checkId rng₁ now₁).2 checkId rng₂ now₂).1 =
      resultStatus (runValidation st checkId rng₁ now₁).1 ∧
    resultFailedCount (runValidation (runValidation st checkId rng₁ now₁).2 checkId rng₂ now₂).1 =
      resultFailedCount (runValidation st checkId rng₁ now₁).1 := by
  obtain ⟨hch, hcsv, hpg⟩ := runValidation_preserves st checkId rng₁ now₁
  have hc' : (runValidation st checkId rng₁ now₁).2.checks.find? (fun c => c.id == checkId) =
      some check := by rw [hch]; exact hc
  obtain ⟨hs1, hf1⟩ := runValidation_csv_core st checkId check rng₁ now₁ hc hdt ht
  obtain ⟨hs2, hf2⟩ := runValidation_csv_core _ checkId check rng₂ now₂ hc' hdt ht
  rw [hs1, hs2, hf1, hf2, hcsv]
  exact ⟨rfl, rfl⟩

/-- C1 witness: a concrete `valid_values` check over a CSV dataset, run
twice with entirely different random draws, gives the same status and
failed count. -/
theorem runValidation_csv_deterministic_witness :
    resultStatus (runValidation (runValidation state6 "check_6" rngA 0).2 "check_6" rngB 1).1 =
      resultStatus (runValidation state6 "check_6" rngA 0).1 ∧
    resultFailedCount (runValidation (runValidation state6 "check_6" rngA 0).2 "check_6" rngB 1).1 =
      resultFailedCount (runValidation state6 "check_6" rngA 0).1 :=
  runValidation_csv_deterministic state6 "check_6" checkValid6 rngA rngB 0 1
    (by decide) (by decide) (Or.inr (Or.inr rfl))

/-- C1 counterexample: for a `value_range` check over an unchanged CSV
dataset, two consecutive invocations of `runValidation` can return
different statuses — the default switch branch decides pass/fail with
`Math.random()`, modelled by the draw streams `rngA` and `rngB`. -/
theorem runValidation_nondeterministic_cex :
    resultStatus (runValidation state1 "check_1" rngA 0).1 = some Status.failed ∧
    resultStatus (runValidation (runValidation state1 "check_1" rngA 0).2 "check_1" rngB 1).1 =
      some Status.passed := by
  rw [run_csv_eq state1 "check_1" checkRange1 dataset1 rngA 0 rfl rfl rfl]
  norm_num [runValidation, state1, checkRange1, dataset1, resolveDataset, rngA, rngB,
    buildResult, evalCheck, defaultEval, totalRowsFor, resultStatus, storeResultList]

/-- C4 (amended): `runValidation` never lets a raw exception escape: every
invocation returns either a success response whose result (status `passed`
or `failed`, never `error`) is the single entry prepended to the result
store by `storeItem`, or a caught-and-converted failure response —
`"Validation check not found"` or `"Dataset not found"` — that leaves the
entire state unchanged and persists nothing. -/
theorem runValidation_no_escape (st : AppState) (checkId : String) (rng : Rng) (now : ℕ) :
    (∃ r, runValidation st checkId rng now =
        (ApiResponse.success r, { st with results := storeResultList st.results r }) ∧
        (r.status = Status.passed ∨ r.status = Status.failed)) ∨
    runValidation st checkId rng now = (ApiResponse.failure "Validation check not found", st) ∨
    runValidation st checkId rng now = (ApiResponse.failure "Dataset not found", st) := by
  unfold runValidation
  cases st.checks.find? (fun c => c.id == checkId) with
  | none => exact Or.inr (Or.inl rfl)
  | some check =>
    dsimp only
    cases resolveDataset st check.dataset with
    | none => exact Or.inr (Or.inr rfl)
    | some ds =>
      refine Or.inl ⟨buildResult check checkId ds rng now, rfl, ?_⟩
      rw [buildResult_status]
      cases (evalCheck check.type check ds (totalRowsFor ds rng) rng).1
      · exact Or.inr rfl
      · exact Or.inl rfl

/-- C4 counterexample: a check whose dataset is not stored.  The failure
during dataset resolution is not converted into a persisted
`status = error` ValidationResult: the run returns a failure response and
appends nothing to the result store (the state is unchanged). -/
theorem runValidation_notfound_no_persist_cex :
    runValidation state4 "check_4" rngA 0 = (ApiResponse.failure "Dataset not found", state4) ∧
    (runValidation state4 "check_4" rngA 0).2.results = [] := by decide

/-- C6: for every ValidationResult produced by a run,
`metrics.passedCount + metrics.failedCount = metrics.rowCount`; this holds
unconditionally for success responses (whose status is always `passed` or
`failed`, with both counts defined), which subsumes the claim's
restriction to non-`error` results. -/
theorem runValidation_metrics_sum (st : AppState) (checkId : String) (rng : Rng) (now : ℕ) :
    metricsConsistent (runValidation st checkId rng now).1 := by
  unfold runValidation
  cases st.checks.find? (fun c => c.id == checkId) with
  | none => trivial
  | some check =>
    dsimp only
    cases resolveDataset st check.dataset with
    | none => trivial
    | some ds =>
      show metricsConsistent (ApiResponse.success (buildResult check checkId ds rng now))
      simp only [metricsConsistent, buildResult_passedCount, buildResult_failedCount,
        buildResult_rowCount]
      omega

/-- C9: `storeItem` puts the new item at the head of the stored list,
keeps exactly the previously stored elements with a different id in their
original relative order (the tail is a filter of the old list, hence a
sublist of it), and leaves no element besides the head whose id equals the
new item's id — storing under an existing id replaces the entry. -/
theorem storeItem_replaces_head (α : Type) (idOf : α → String) (st : LocalStorage α)
    (key : String) (item : α) :
    (getStoredData (storeItem idOf st key item) key).head? = some item ∧
    (getStoredData (storeItem idOf st key item) key).tail =
      (getStoredData st key).filter (fun d => idOf d != idOf item) ∧
    List.Sublist ((getStoredData (storeItem idOf st key item) key).tail) (getStoredData st key) ∧
    ∀ x ∈ (getStoredData (storeItem idOf st key item) key).tail, idOf x ≠ idOf item := by
  have hafter : getStoredData (storeItem idOf st key item) key =
      item :: (getStoredData st key).filter (fun d => idOf d != idOf item) := by
    simp [storeItem, storeData, getStoredData]
  rw [hafter]
  refine ⟨rfl, rfl, List.filter_sublist _, ?_⟩
  intro x hx
  have hmem := List.of_mem_filter hx
  simpa using hmem

/-- C9 witness: storing an item whose id `b` already exists replaces the
old entry and lands at the head. -/
theorem storeItem_replaces_head_witness :
    (getStoredData (storeItem Prod.fst storageX "tbl" ("b", "9")) "tbl").head? =
      some ("b", "9") :=
  (storeItem_replaces_head (String × String) Prod.fst storageX "tbl" ("b", "9")).1

/-- C10: `getStoredData` is total at the public interface — it is a total
function returning a list for every key — and it returns `[]` when the key
is absent from localStorage, when the slot holds the falsy empty string,
and when the stored content is not valid JSON (the `JSON.parse` exception
is caught); a validly stored list is returned as is. -/
theorem getStoredData_total_safe (α : Type) (st : LocalStorage α) (key : String) :
    (st key = StorageCell.absent → getStoredData st key = []) ∧
    (st key = StorageCell.emptyStr → getStoredData st key = []) ∧
    (∀ raw, st key = StorageCell.invalid raw → getStoredData st key = []) ∧
    (∀ items, st key = StorageCell.valid items → getStoredData st key = items) := by
  refine ⟨fun h => ?_, fun h => ?_, fun raw h => ?_, fun items h => ?_⟩ <;>
    simp [getStoredData, h]

/-- C10 witness: an absent key and an unparseable slot both yield `[]`. -/
theorem getStoredData_total_safe_witness :
    getStoredData storageX "missing" = [] ∧ getStoredData storageX "bad" = [] :=
  ⟨(getStoredData_total_safe (String × String) storageX "missing").1 rfl,
   (getStoredData_total_safe (String × String) storageX "bad").2.2.1 "not json" rfl⟩

/-- Evaluation verdict of the CSV missing-values arm: it passes exactly
when the checked column exists and the scaled missing count is within the
threshold. -/
theorem missingValuesCsv_spec (check : ValidationCheck) (d : CsvDataset) (N : ℕ) :
    (missingValuesCsv check d N).1 = true ↔
      (d.columns.contains (columnKey check) = true ∧
        ((missingValuesCsv check d N).2 : ℚ) ≤ thresholdOf check * N / 100) := by
  unfold missingValuesCsv
  cases hcol : d.columns.contains (columnKey check) <;> simp [hcol]

/-- C2 (amended): for a `missing_values` run over a CSV dataset the code
is two-valued, not tri-state: the result status is `failed` iff the
checked column is absent from the dataset's columns or the scaled missing
count exceeds the threshold (`failedCount/rowCount*100 > threshold`), and
`passed` otherwise — so a `passed` result may have `failedCount > 0` (see
the counterexample), and `warning` (and `error`) is never produced. -/
theorem missing_values_status_boundary (st : AppState) (checkId : String)
    (check : ValidationCheck) (d : CsvDataset) (rng : Rng) (now : ℕ)
    (hc : st.checks.find? (fun c => c.id == checkId) = some check)
    (ht : check.type = CheckType.missing_values)
    (hdt : check.dataset.type = DatasetType.csv)
    (hd : st.csvDatasets.find? (fun x => x.id == check.dataset.id) = some d)
    (hp : d.previewData ≠ []) :
    ∃ r, (runValidation st checkId rng now).1 = ApiResponse.success r ∧
      r.metrics.failedCount = (missingValuesCsv check d d.rowCount).2 ∧
      (r.status = Status.failed ↔
        (d.columns.contains (columnKey check) = false ∨
          thresholdOf check * d.rowCount / 100 <
            ((missingValuesCsv check d d.rowCount).2 : ℚ))) ∧
      (r.status = Status.passed ↔
        (d.columns.contains (columnKey check) = true ∧
          ((missingValuesCsv check d d.rowCount).2 : ℚ) ≤
            thresholdOf check * d.rowCount / 100)) ∧
      r.status ≠ Status.warning ∧ r.status ≠ Status.error := by
  have hev : evalCheck check.type check (Dataset.csv d) (totalRowsFor (Dataset.csv d) rng) rng =
      missingValuesCsv check d d.rowCount := by rw [ht]; rfl
  have hspec := missingValuesCsv_spec check d d.rowCount
  have hstat : (buildResult check checkId (Dataset.csv d) rng now).status =
      if (missingValuesCsv check d d.rowCount).1 then Status.passed else Status.failed := by
    rw [buildResult_status, hev]
  rw [run_csv_eq st checkId check d rng now hc hdt hd]
  cases hP : (missingValuesCsv check d d.rowCount).1 with
  | false =>
    rw [hP] at hspec hstat
    simp only [Bool.false_eq_true, false_iff, if_false] at hspec hstat
    refine ⟨buildResult check checkId (Dataset.csv d) rng now, rfl,
      by rw [buildResult_failedCount, hev], ?_, ?_, ?_, ?_⟩
    · rw [hstat]
      refine iff_of_true rfl ?_
      rcases not_and_or.mp hspec with h | h
      · exact Or.inl (by simpa using h)
      · exact Or.inr (not_le.mp h)
    · rw [hstat]
      exact iff_of_false (by simp) hspec
    · rw [hstat]; simp
    · rw [hstat]; simp
  | true =>
    rw [hP] at hspec hstat
    simp only [true_iff, if_true] at hspec hstat
    refine ⟨buildResult check checkId (Dataset.csv d) rng now, rfl,
      by rw [buildResult_failedCount, hev], ?_, ?_, ?_, ?_⟩
    · rw [hstat]
      refine iff_of_false (by simp) ?_
      rintro (h | h)
      · rw [hspec.1] at h
        exact absurd h (by simp)
      · exact absurd hspec.2 (not_le.mpr h)
    · rw [hstat]
      exact iff_of_true rfl hspec
    · rw [hstat]; simp
    · rw [hstat]; simp

/-- C2 witness: the amended boundary at the concrete check `check_2`
(threshold 100) over the dataset `csv_2`. -/
theorem missing_values_status_boundary_witness :
    ∃ r, (runValidation state2 "check_2" rngA 0).1 = ApiResponse.success r ∧
      r.metrics.failedCount = (missingValuesCsv checkMissing2 dataset2 dataset2.rowCount).2 ∧
      (r.status = Status.failed ↔
        (dataset2.columns.contains (columnKey checkMissing2) = false ∨
          thresholdOf checkMissing2 * dataset2.rowCount / 100 <
            ((missingValuesCsv checkMissing2 dataset2 dataset2.rowCount).2 : ℚ))) ∧
      (r.status = Status.passed ↔
        (dataset2.columns.contains (columnKey checkMissing2) = true ∧
          ((missingValuesCsv checkMissing2 dataset2 dataset2.rowCount).2 : ℚ) ≤
            thresholdOf checkMissing2 * dataset2.rowCount / 100)) ∧
      r.status ≠ Status.warning ∧ r.status ≠ Status.error :=
  missing_values_status_boundary state2 "check_2" checkMissing2 dataset2 rngA 0 rfl rfl rfl rfl
    (by decide)

/-- C2 counterexample: a `missing_values` run over a CSV dataset whose
preview has one empty cell out of two (threshold 100): the persisted
result has status `passed` with `failedCount = 2 ≠ 0`, refuting
"passed iff failedCount == 0" (and no `warning` is ever produced). -/
theorem missing_values_passed_nonzero_cex :
    resultStatus (runValidation state2 "check_2" rngA 0).1 = some Status.passed ∧
    resultFailedCount (runValidation state2 "check_2" rngA 0).1 = some 2 ∧ (2 : ℕ) ≠ 0 := by
  have h1 : List.countP (fun r => isEmptyVal r "v") [[("v", "")], [("v", "x")]] = 1 := by decide
  have h2 : (["v"].contains "v") = true := by decide
  norm_num [runValidation, state2, checkMissing2, dataset2, resolveDataset, rngA, buildResult,
    evalCheck, missingValuesCsv, thresholdOf, columnKey, totalRowsFor,
    resultStatus, resultFailedCount, storeResultList, h1, h2]

/-- C3 (code_bug evidence): running the `custom_sql` check `check_3`,
whose referenced dataset is the CSV dataset `csv_3`, does not produce a
`status = error` result with an unsupported-operation message: the default
switch branch decides at random (status `failed` under the draws `rngA`,
`passed` under `rngB`) and `errorMessage` is always the empty string. -/
theorem custom_sql_csv_no_error_cex :
    resultStatus (runValidation state3 "check_3" rngA 0).1 = some Status.failed ∧
    resultStatus (runValidation state3 "check_3" rngB 0).1 = some Status.passed ∧
    resultErrorMessage (runValidation state3 "check_3" rngA 0).1 = some "" := by
  norm_num [runValidation, state3, checkSql3, dataset3, resolveDataset, rngA, rngB, buildResult,
    evalCheck, defaultEval, totalRowsFor, resultStatus, resultErrorMessage, storeResultList]

/-- C5 (amended): when a run over a CSV dataset produces a `failedRows`
field, its length is exactly `min failedCount previewData.length` — a
bound depending on the stored preview (at most 3 rows for datasets built
by `uploadCsvFile`), not a fixed dataset-independent cap such as 10, and
possibly zero: `failedRows` can be present and empty (counterexample). -/
theorem failedRows_length_eq (st : AppState) (checkId : String) (check : ValidationCheck)
    (d : CsvDataset) (rng : Rng) (now : ℕ) (r : ValidationResult) (l : List Row)
    (hc : st.checks.find? (fun c => c.id == checkId) = some check)
    (hdt : check.dataset.type = DatasetType.csv)
    (hd : st.csvDatasets.find? (fun x => x.id == check.dataset.id) = some d)
    (hr : (runValidation st checkId rng now).1 = ApiResponse.success r)
    (hl : r.failedRows = some l) :
    l.length = min r.metrics.failedCount d.previewData.length := by
  rw [run_csv_eq st checkId check d rng now hc hdt hd] at hr
  injection hr with hb
  subst hb
  rw [buildResult_failedRows_csv] at hl
  rw [buildResult_failedCount]
  cases hP : (evalCheck check.type check (Dataset.csv d)
      (totalRowsFor (Dataset.csv d) rng) rng).1 with
  | false =>
    rw [hP] at hl
    simp only [Bool.not_false, if_true, Option.some.injEq] at hl
    subst hl
    simp only [sampleFailedRows, List.length_map, List.length_take]
    omega
  | true =>
    rw [hP] at hl
    simp at hl

/-- C5 witness: the failed `valid_values` run over `csv_6` carries a
failed-row sample of length `min failedCount previewLength`. -/
theorem failedRows_length_eq_witness :
    (sampleFailedRows CheckType.valid_values dataset6 2).length =
      min (buildResult checkValid6 "check_6" (Dataset.csv dataset6) rngA 0).metrics.failedCount
        dataset6.previewData.length :=
  failedRows_length_eq state6 "check_6" checkValid6 dataset6 rngA 0
    (buildResult checkValid6 "check_6" (Dataset.csv dataset6) rngA 0)
    (sampleFailedRows CheckType.valid_values dataset6 2)
    rfl rfl rfl rfl (by decide)

/-- C5 counterexample: a `missing_values` check on a column absent from
its CSV dataset fails with `failedCount = 0`, and the persisted result's
`failedRows` field is present but empty — refuting "failedRows, when
present, is non-empty". -/
theorem failedRows_present_empty_cex :
    resultFailedRows (runValidation state5 "check_5" rngA 0).1 = some (some []) := by
  rw [run_csv_eq state5 "check_5" checkNoCol5 dataset5 rngA 0 rfl rfl rfl]
  have h : evalCheck checkNoCol5.type checkNoCol5 (Dataset.csv dataset5)
      (totalRowsFor (Dataset.csv dataset5) rngA) rngA = (false, 0) := by decide
  simp [resultFailedRows, buildResult_failedRows_csv, h, sampleFailedRows]

/-- C7 (amended): for a `unique_values` run over a CSV dataset with
preview length `P` and `U` distinct previewed column values, the
persisted `failedCount` is the rescaled `rowCount * (P - U) / P` (integer
division), which equals `N - U` with `N` the run's row count only when
the preview covers the whole dataset (`rowCount = P`); given
`P ≤ rowCount`, the run passes iff the previewed values have no
duplicates (`U = P`). -/
theorem unique_values_failedCount (st : AppState) (checkId : String)
    (check : ValidationCheck) (d : CsvDataset) (rng : Rng) (now : ℕ)
    (hc : st.checks.find? (fun c => c.id == checkId) = some check)
    (ht : check.type = CheckType.unique_values)
    (hdt : check.dataset.type = DatasetType.csv)
    (hd : st.csvDatasets.find? (fun x => x.id == check.dataset.id) = some d)
    (hp : d.previewData ≠ []) :
    ∃ r, (runValidation st checkId rng now).1 = ApiResponse.success r ∧
      r.metrics.failedCount =
        d.rowCount * (d.previewData.length - uniqueCount check d) / d.previewData.length ∧
      (d.rowCount = d.previewData.length →
        r.metrics.failedCount = d.previewData.length - uniqueCount check d) ∧
      (d.previewData.length ≤ d.rowCount →
        (r.status = Status.passed ↔ uniqueCount check d = d.previewData.length)) := by
  have hev : evalCheck check.type check (Dataset.csv d) (totalRowsFor (Dataset.csv d) rng) rng =
      uniqueValuesCsv check d d.rowCount := by rw [ht]; rfl
  have hP0 : 0 < d.previewData.length := List.length_pos.mpr hp
  have hfc : (uniqueValuesCsv check d d.rowCount).2 =
      d.rowCount * (d.previewData.length - uniqueCount check d) / d.previewData.length := by
    unfold uniqueValuesCsv uniqueCount
    simp [List.length_map]
  have h1st : (uniqueValuesCsv check d d.rowCount).1 =
      ((uniqueValuesCsv check d d.rowCount).2 == 0) := rfl
  have hU : uniqueCount check d ≤ d.previewData.length := by
    have h1 := List.Sublist.length_le
      (List.dedup_sublist (d.previewData.map (fun r => lookupVal r (columnKey check))))
    simpa [uniqueCount, List.length_map] using h1
  rw [run_csv_eq st checkId check d rng now hc hdt hd]
  refine ⟨buildResult check checkId (Dataset.csv d) rng now, rfl, ?_, ?_, ?_⟩
  · rw [buildResult_failedCount, hev, hfc]
  · intro hNP
    rw [buildResult_failedCount, hev, hfc, hNP]
    exact Nat.mul_div_cancel_left _ hP0
  · intro hPN
    have hz : ((uniqueValuesCsv check d d.rowCount).2 = 0) ↔
        uniqueCount check d = d.previewData.length := by
      rw [hfc, Nat.div_eq_zero_iff hP0]
      constructor
      · intro hlt
        by_contra hne
        have h1 : 1 ≤ d.previewData.length - uniqueCount check d := by omega
        have h2 : d.rowCount * 1 ≤ d.rowCount * (d.previewData.length - uniqueCount check d) :=
          Nat.mul_le_mul_left _ h1
        omega
      · intro he
        rw [he]
        simpa using hP0
    rw [buildResult_status, hev, h1st]
    cases hbeq : ((uniqueValuesCsv check d d.rowCount).2 == 0) with
    | false =>
      have hzz : (uniqueValuesCsv check d d.rowCount).2 ≠ 0 := by simpa using hbeq
      rw [if_neg (by simp)]
      exact iff_of_false (by simp) (fun he => hzz (hz.mpr he))
    | true =>
      have hzz : (uniqueValuesCsv check d d.rowCount).2 = 0 := by simpa using hbeq
      rw [if_pos rfl]
      exact iff_of_true rfl (hz.mp hzz)

/-- C7 witness: the amended formula at the concrete `unique_values` check
over `csv_7` (rowCount 6, preview length 3, 2 distinct values). -/
theorem unique_values_failedCount_witness :
    ∃ r, (runValidation state7 "check_7" rngA 0).1 = ApiResponse.success r ∧
      r.metrics.failedCount =
        dataset7.rowCount * (dataset7.previewData.length - uniqueCount checkUnique7 dataset7) /
          dataset7.previewData.length ∧
      (dataset7.rowCount = dataset7.previewData.length →
        r.metrics.failedCount = dataset7.previewData.length - uniqueCount checkUnique7 dataset7) ∧
      (dataset7.previewData.length ≤ dataset7.rowCount →
        (r.status = Status.passed ↔
          uniqueCount checkUnique7 dataset7 = dataset7.previewData.length)) :=
  unique_values_failedCount state7 "check_7" checkUnique7 dataset7 rngA 0 rfl rfl rfl rfl
    (by decide)

/-- C7 counterexample: over `csv_7` (6 total rows, preview `[a, a, b]`,
so `U = 2` distinct values) the persisted `failedCount` is the rescaled
`2`, not `N - U = 6 - 2 = 4`. -/
theorem unique_values_scaled_cex :
    resultFailedCount (runValidation state7 "check_7" rngA 0).1 = some 2 ∧
    dataset7.rowCount - uniqueCount checkUnique7 dataset7 = 4 ∧ (2 : ℕ) ≠ 4 := by
  rw [run_csv_eq state7 "check_7" checkUnique7 dataset7 rngA 0 rfl rfl rfl]
  have h : evalCheck checkUnique7.type checkUnique7 (Dataset.csv dataset7)
      (totalRowsFor (Dataset.csv dataset7) rngA) rngA = (false, 2) := by decide
  refine ⟨?_, by decide, by decide⟩
  simp [resultFailedCount, buildResult_failedCount, h]

/-- C8 (amended): the stored `rowCount` of an uploaded CSV file equals
the number of `'\n'`-separated segments of the content minus one, which
counts blank lines after the header as data rows; it equals the number of
non-blank data rows after the header exactly when every post-header
segment is non-blank — in particular a trailing newline inflates it by
one (counterexample). -/
theorem uploadCsv_rowCount_eq (content fileName : String) (now : ℕ) :
    (uploadCsvDataset content fileName now).rowCount = (jsSplit '\n' content).length - 1 ∧
    ((∀ l ∈ (jsSplit '\n' content).drop 1, jsTrim l ≠ "") →
      (uploadCsvDataset content fileName now).rowCount = specDataRowCount content) := by
  constructor
  · rfl
  · intro h
    have hcount : specDataRowCount content = ((jsSplit '\n' content).drop 1).length := by
      unfold specDataRowCount
      rw [List.countP_eq_length]
      intro a ha
      simpa using h a ha
    have hrc : (uploadCsvDataset content fileName now).rowCount =
        (jsSplit '\n' content).length - 1 := rfl
    rw [hrc, hcount, List.length_drop]

/-- C8 witness: a file with no trailing newline — `"h\na\nb"` — has
`rowCount` equal to its non-blank data-row count, 2. -/
theorem uploadCsv_rowCount_eq_witness :
    (uploadCsvDataset "h\na\nb" "t.csv" 0).rowCount = specDataRowCount "h\na\nb" ∧
    specDataRowCount "h\na\nb" = 2 :=
  ⟨(uploadCsv_rowCount_eq "h\na\nb" "t.csv" 0).2 (by decide), by decide⟩

/-- C8 counterexample: the file content `"h\na\nb\n"` has two data rows
after the header, but the trailing newline makes `parseCSV` report
`rowCount = 3`. -/
theorem uploadCsv_rowCount_trailing_newline_cex :
    (uploadCsvDataset "h\na\nb\n" "t.csv" 0).rowCount = 3 ∧
    specDataRowCount "h\na\nb\n" = 2 ∧ (3 : ℕ) ≠ 2 := by decide

end SodaSafeguard
